import Mathlib

/-!
# Verification of the geoloc-util core

A shallow embedding of the repository's three modules and proofs of the
specification's claims about them:

* `src/utils.py` — `validate_location_input` (emptiness / character-class
  validation via the regex `^[\w\s,.-]+$` with `re.UNICODE`) and
  `encode_location` (`urllib.parse.quote(location, safe="")`).
* `src/api_client.py` — `fetch_coordinates_by_name` and
  `fetch_coordinates_by_zip`: ZIP validation (`zip_code.isdigit()` and
  `len(zip_code) == 5`), HTTP dispatch, and normalization of the
  success / error responses.
* `src/geoloc_util.py` — the CLI loop that routes each token by
  `token.isdigit()` and prints one line per processed token.

The network is modelled as an oracle `Request → NetResult` giving, for the
single GET request an invocation may issue, either an HTTP response
(status and parsed JSON body), a timeout, or a transport-level failure.
Each fetch function returns both its Python-level outcome (normal return
value or raised exception) and the list of HTTP requests it issued, so
that "no network call is made" is expressible.

Python character classifications (`str.isspace`/`\s`, `str.isalnum`-based
`\w`, `str.isdigit`) are modelled as executable predicates on `Char`.
`pyIsSpaceChar` is the complete Unicode whitespace set used by CPython.
`pyIsAlnumChar` and `pyIsDigitChar` are exact on code points up to U+00FF
(ASCII and Latin-1) and conservatively classify higher code points as
outside the class; every concrete string appearing in a theorem below
stays inside the exactly-modelled range.
-/

/-! ## Python character classes -/

/-- Python's whitespace set, as used by `str.strip`, `str.isspace` and the
regex class `\s` under `re.UNICODE`: TAB..CR, FS..US, SPACE, NEL, NBSP,
OGHAM SPACE MARK, the U+2000 block spaces, LINE/PARAGRAPH SEPARATOR,
NARROW NBSP, MATHEMATICAL SPACE, IDEOGRAPHIC SPACE. -/
def pyIsSpaceChar (c : Char) : Bool :=
  let n := c.toNat
  (9 ≤ n && n ≤ 13) || (0x1C ≤ n && n ≤ 0x1F) || n == 32 || n == 0x85 || n == 0xA0 ||
  n == 0x1680 || (0x2000 ≤ n && n ≤ 0x200A) || n == 0x2028 || n == 0x2029 ||
  n == 0x202F || n == 0x205F || n == 0x3000

/-- Python's alphanumeric classification (`str.isalnum`, the basis of the
regex class `\w` under `re.UNICODE`, which is this together with the
underscore): letters, decimal digits, and numeric characters. Exact on
code points ≤ U+00FF (ASCII digits and letters; the Latin-1 letters
U+00C0–U+00FF except × and ÷; ª µ º; the superscripts ¹²³; the vulgar
fractions ¼½¾); code points above U+00FF are conservatively classified
as non-alphanumeric. -/
def pyIsAlnumChar (c : Char) : Bool :=
  let n := c.toNat
  (48 ≤ n && n ≤ 57) || (65 ≤ n && n ≤ 90) || (97 ≤ n && n ≤ 122) ||
  n == 0xAA || n == 0xB5 || n == 0xBA ||
  n == 0xB2 || n == 0xB3 || n == 0xB9 ||
  n == 0xBC || n == 0xBD || n == 0xBE ||
  (0xC0 ≤ n && n ≤ 0xFF && n != 0xD7 && n != 0xF7)

/-- Python's `str.isdigit` on a single character: characters whose Unicode
numeric type is Digit or Decimal. Exact on code points ≤ U+00FF (the ASCII
digits and the superscripts ¹ U+00B9, ² U+00B2, ³ U+00B3 — note the
latter three are digits for Python although they are not ASCII); higher
code points (e.g. the Arabic-Indic digits, which real Python also
accepts) are conservatively classified as non-digits. -/
def pyIsDigitChar (c : Char) : Bool :=
  let n := c.toNat
  (48 ≤ n && n ≤ 57) || n == 0xB2 || n == 0xB3 || n == 0xB9

/-- Python's `str.isdigit` on a whole string: non-empty and every
character is a digit. -/
def pyIsDigitStr (s : String) : Bool :=
  !s.isEmpty && s.data.all pyIsDigitChar

/-- Python's `str.strip`: remove leading and trailing whitespace. -/
def pyStrip (s : String) : String :=
  ⟨((s.data.dropWhile pyIsSpaceChar).reverse.dropWhile pyIsSpaceChar).reverse⟩

/-- The character class of the validation regex `[\w\s,.-]` in
`src/utils.py` (with `re.UNICODE`): word characters (alphanumerics and
the underscore), whitespace, comma, period, hyphen. -/
def wordClassChar (c : Char) : Bool :=
  pyIsAlnumChar c || c == '_' || pyIsSpaceChar c || c == ',' || c == '.' || c == '-'

/-- The Input Validator's character class as the specification states it:
letters, digits, whitespace, comma, period, hyphen — and nothing else.
This follows the spec's words, for comparison with `wordClassChar`, the
class the validation regex actually implements (which also contains the
underscore, via `\w`). -/
def specLocationClassChar (c : Char) : Bool :=
  pyIsAlnumChar c || pyIsSpaceChar c || c == ',' || c == '.' || c == '-'

/-! ## JSON values -/

/-- Parsed JSON values, as returned by `response.json()`. Numbers are
modelled as decimal mantissa/exponent pairs (value `mantissa × 10^exponent`),
which represents every numeric literal occurring in a JSON text without
binary floating point. -/
inductive Json where
  | null
  | bool (b : Bool)
  | num (mantissa exponent : Int)
  | str (s : String)
  | arr (xs : List Json)
  | obj (fields : List (String × Json))

mutual

def Json.decEq : (a b : Json) → Decidable (a = b)
  | .null, .null => isTrue rfl
  | .bool a, .bool b =>
    if h : a = b then isTrue (by rw [h]) else isFalse (fun he => h (Json.bool.inj he))
  | .num m1 e1, .num m2 e2 =>
    if h : m1 = m2 ∧ e1 = e2 then isTrue (by rw [h.1, h.2])
    else isFalse (fun he => h ⟨(Json.num.inj he).1, (Json.num.inj he).2⟩)
  | .str a, .str b =>
    if h : a = b then isTrue (by rw [h]) else isFalse (fun he => h (Json.str.inj he))
  | .arr xs, .arr ys =>
    match Json.decEqList xs ys with
    | isTrue h => isTrue (by rw [h])
    | isFalse h => isFalse (fun he => h (Json.arr.inj he))
  | .obj xs, .obj ys =>
    match Json.decEqFields xs ys with
    | isTrue h => isTrue (by rw [h])
    | isFalse h => isFalse (fun he => h (Json.obj.inj he))
  | .null, .bool _ => isFalse (fun h => Json.noConfusion h)
  | .null, .num _ _ => isFalse (fun h => Json.noConfusion h)
  | .null, .str _ => isFalse (fun h => Json.noConfusion h)
  | .null, .arr _ => isFalse (fun h => Json.noConfusion h)
  | .null, .obj _ => isFalse (fun h => Json.noConfusion h)
  | .bool _, .null => isFalse (fun h => Json.noConfusion h)
  | .bool _, .num _ _ => isFalse (fun h => Json.noConfusion h)
  | .bool _, .str _ => isFalse (fun h => Json.noConfusion h)
  | .bool _, .arr _ => isFalse (fun h => Json.noConfusion h)
  | .bool _, .obj _ => isFalse (fun h => Json.noConfusion h)
  | .num _ _, .null => isFalse (fun h => Json.noConfusion h)
  | .num _ _, .bool _ => isFalse (fun h => Json.noConfusion h)
  | .num _ _, .str _ => isFalse (fun h => Json.noConfusion h)
  | .num _ _, .arr _ => isFalse (fun h => Json.noConfusion h)
  | .num _ _, .obj _ => isFalse (fun h => Json.noConfusion h)
  | .str _, .null => isFalse (fun h => Json.noConfusion h)
  | .str _, .bool _ => isFalse (fun h => Json.noConfusion h)
  | .str _, .num _ _ => isFalse (fun h => Json.noConfusion h)
  | .str _, .arr _ => isFalse (fun h => Json.noConfusion h)
  | .str _, .obj _ => isFalse (fun h => Json.noConfusion h)
  | .arr _, .null => isFalse (fun h => Json.noConfusion h)
  | .arr _, .bool _ => isFalse (fun h => Json.noConfusion h)
  | .arr _, .num _ _ => isFalse (fun h => Json.noConfusion h)
  | .arr _, .str _ => isFalse (fun h => Json.noConfusion h)
  | .arr _, .obj _ => isFalse (fun h => Json.noConfusion h)
  | .obj _, .null => isFalse (fun h => Json.noConfusion h)
  | .obj _, .bool _ => isFalse (fun h => Json.noConfusion h)
  | .obj _, .num _ _ => isFalse (fun h => Json.noConfusion h)
  | .obj _, .str _ => isFalse (fun h => Json.noConfusion h)
  | .obj _, .arr _ => isFalse (fun h => Json.noConfusion h)

def Json.decEqList : (xs ys : List Json) → Decidable (xs = ys)
  | [], [] => isTrue rfl
  | [], _ :: _ => isFalse (fun h => List.noConfusion h)
  | _ :: _, [] => isFalse (fun h => List.noConfusion h)
  | x :: xs, y :: ys =>
    match Json.decEq x y with
    | isFalse h1 => isFalse (fun he => h1 (List.cons.inj he).1)
    | isTrue h1 =>
      match Json.decEqList xs ys with
      | isTrue h2 => isTrue (by rw [h1, h2])
      | isFalse h2 => isFalse (fun he => h2 (List.cons.inj he).2)

def Json.decEqFields : (xs ys : List (String × Json)) → Decidable (xs = ys)
  | [], [] => isTrue rfl
  | [], _ :: _ => isFalse (fun h => List.noConfusion h)
  | _ :: _, [] => isFalse (fun h => List.noConfusion h)
  | (k1, v1) :: xs, (k2, v2) :: ys =>
    if hk : k1 = k2 then
      match Json.decEq v1 v2 with
      | isFalse h1 =>
        isFalse (fun he => h1 (congrArg Prod.snd (List.cons.inj he).1))
      | isTrue h1 =>
        match Json.decEqFields xs ys with
        | isTrue h2 => isTrue (by rw [hk, h1, h2])
        | isFalse h2 => isFalse (fun he => h2 (List.cons.inj he).2)
    else isFalse (fun he => hk (congrArg Prod.fst (List.cons.inj he).1))

end

instance : DecidableEq Json := Json.decEq

instance {ε α : Type} [DecidableEq ε] [DecidableEq α] : DecidableEq (Except ε α) := fun a b =>
  match a, b with
  | .ok x, .ok y =>
    if h : x = y then isTrue (by rw [h]) else isFalse (fun he => h (Except.ok.inj he))
  | .error x, .error y =>
    if h : x = y then isTrue (by rw [h]) else isFalse (fun he => h (Except.error.inj he))
  | .ok _, .error _ => isFalse (fun h => Except.noConfusion h)
  | .error _, .ok _ => isFalse (fun h => Except.noConfusion h)

/-- Python truthiness of a parsed JSON value, as tested by
`if not data:` in `fetch_coordinates_by_name`: `None`, `False`, zero,
the empty string, the empty list and the empty dict are falsy. -/
def Json.pyTruthy : Json → Bool
  | .null => false
  | .bool b => b
  | .num m _ => m != 0
  | .str s => !s.isEmpty
  | .arr xs => !xs.isEmpty
  | .obj fs => !fs.isEmpty

/-! ## `src/utils.py` -/

/-- Python exceptions raised by the embedded code, one constructor per
distinct raise site of `src/utils.py` and `src/api_client.py`:
`valueError msg` is `ValueError(msg)`; `timeoutError` is the
`TimeoutError("The request timed out. Please try again later.")` of the
timeout branches; `unauthorized` is the
`RuntimeError("Unauthorized access: Check your API key.")` of the 401
branches; `httpError status` is the
`RuntimeError(f"HTTP error occurred: {http_err}")` of the other
HTTP-error branches, tagged with the response status; `requestError` is
the `RuntimeError(f"An error occurred during the request: {req_err}")`
of the transport-failure branches. -/
inductive PyError where
  | valueError (msg : String)
  | timeoutError
  | unauthorized
  | httpError (status : Nat)
  | requestError
deriving DecidableEq

/-- `validate_location_input` from `src/utils.py`: raise on an
empty-after-strip string, raise on a string not matching
`^[\w\s,.-]+$` (`re.UNICODE`), otherwise return the string unchanged.
(A string that is non-empty after stripping is non-empty, so the `+` of
the regex is equivalent to the per-character class check.) -/
def validate_location_input (location : String) : Except PyError String :=
  if (pyStrip location).isEmpty then
    .error (.valueError "Location input cannot be empty.")
  else if !location.data.all wordClassChar then
    .error (.valueError "Location contains invalid characters.")
  else .ok location

/-- UTF-8 encoding of a single scalar value, as a list of bytes
(each < 256), written as `Nat`s. -/
def utf8EncodeChar (c : Char) : List Nat :=
  let n := c.toNat
  if n < 0x80 then [n]
  else if n < 0x800 then [0xC0 + n / 64, 0x80 + n % 64]
  else if n < 0x10000 then [0xE0 + n / 4096, 0x80 + (n / 64) % 64, 0x80 + n % 64]
  else [0xF0 + n / 262144, 0x80 + (n / 4096) % 64, 0x80 + (n / 64) % 64, 0x80 + n % 64]

/-- UTF-8 encoding of a character sequence. -/
def utf8Encode (cs : List Char) : List Nat :=
  cs.foldr (fun c acc => utf8EncodeChar c ++ acc) []

mutual

/-- UTF-8 decoding: the inverse of `utf8Encode`, failing on a byte
sequence that is not a valid encoding. The leading byte selects the
sequence length; `utf8DecodeTwo`, `utf8DecodeThree` and `utf8DecodeFour`
consume the continuation bytes of a multi-byte sequence. -/
def utf8Decode : List Nat → Option (List Char)
  | [] => some []
  | b0 :: rest =>
    if b0 < 0x80 then (utf8Decode rest).map (Char.ofNat b0 :: ·)
    else if b0 < 0xC0 then none
    else if b0 < 0xE0 then utf8DecodeTwo b0 rest
    else if b0 < 0xF0 then utf8DecodeThree b0 rest
    else if b0 < 0xF8 then utf8DecodeFour b0 rest
    else none

/-- Decode the continuation byte of a two-byte UTF-8 sequence. -/
def utf8DecodeTwo (b0 : Nat) : List Nat → Option (List Char)
  | b1 :: rest =>
    if 0x80 ≤ b1 ∧ b1 < 0xC0 then
      (utf8Decode rest).map (Char.ofNat ((b0 - 0xC0) * 64 + (b1 - 0x80)) :: ·)
    else none
  | _ => none

/-- Decode the continuation bytes of a three-byte UTF-8 sequence. -/
def utf8DecodeThree (b0 : Nat) : List Nat → Option (List Char)
  | b1 :: b2 :: rest =>
    if (0x80 ≤ b1 ∧ b1 < 0xC0) ∧ (0x80 ≤ b2 ∧ b2 < 0xC0) then
      (utf8Decode rest).map
        (Char.ofNat ((b0 - 0xE0) * 4096 + (b1 - 0x80) * 64 + (b2 - 0x80)) :: ·)
    else none
  | _ => none

/-- Decode the continuation bytes of a four-byte UTF-8 sequence. -/
def utf8DecodeFour (b0 : Nat) : List Nat → Option (List Char)
  | b1 :: b2 :: b3 :: rest =>
    if (0x80 ≤ b1 ∧ b1 < 0xC0) ∧ (0x80 ≤ b2 ∧ b2 < 0xC0) ∧ (0x80 ≤ b3 ∧ b3 < 0xC0) then
      (utf8Decode rest).map
        (Char.ofNat
          ((b0 - 0xF0) * 262144 + (b1 - 0x80) * 4096 + (b2 - 0x80) * 64 + (b3 - 0x80)) :: ·)
    else none
  | _ => none

end

/-- The bytes never percent-encoded by Python's `urllib.parse.quote`
(its `_ALWAYS_SAFE` set): ASCII letters, ASCII digits, and `_ . - ~`.
With `safe=""`, every other byte is escaped. -/
def alwaysSafeByte (b : Nat) : Bool :=
  (65 ≤ b && b ≤ 90) || (97 ≤ b && b ≤ 122) || (48 ≤ b && b ≤ 57) ||
  b == 95 || b == 46 || b == 45 || b == 126

/-- An uppercase hexadecimal digit, as emitted by `urllib.parse.quote`. -/
def hexDigitChar (n : Nat) : Char :=
  if n < 10 then Char.ofNat (48 + n) else Char.ofNat (55 + n)

/-- The value of a hexadecimal digit character (either case), or `none`. -/
def hexVal (c : Char) : Option Nat :=
  if 48 ≤ c.toNat ∧ c.toNat ≤ 57 then some (c.toNat - 48)
  else if 65 ≤ c.toNat ∧ c.toNat ≤ 70 then some (c.toNat - 55)
  else if 97 ≤ c.toNat ∧ c.toNat ≤ 102 then some (c.toNat - 87)
  else none

/-- Percent-encode a byte sequence: a byte in `_ALWAYS_SAFE` becomes its
ASCII character, any other byte becomes `%` followed by two uppercase
hex digits. -/
def percentEncodeBytes : List Nat → List Char
  | [] => []
  | b :: bs =>
    (if alwaysSafeByte b then [Char.ofNat b]
     else ['%', hexDigitChar (b / 16), hexDigitChar (b % 16)]) ++ percentEncodeBytes bs

/-- `encode_location` from `src/utils.py`:
`urllib.parse.quote(location, safe="")` — percent-encode every byte of
the UTF-8 encoding of the string outside the always-safe set. -/
def encode_location (location : String) : String :=
  ⟨percentEncodeBytes (utf8Encode location.data)⟩

mutual

/-- Percent-decoding to bytes: `%` followed by two hex digits yields the
denoted byte, any other ASCII character yields its code point; fails on a
malformed `%` sequence or a non-ASCII character. -/
def percentDecodeBytes : List Char → Option (List Nat)
  | [] => some []
  | c :: rest =>
    if c = '%' then percentDecodeEscape rest
    else if c.toNat < 0x80 then (percentDecodeBytes rest).map (c.toNat :: ·)
    else none

/-- Decode the two hex digits following a `%`. -/
def percentDecodeEscape : List Char → Option (List Nat)
  | c1 :: c2 :: rest =>
    match hexVal c1, hexVal c2 with
    | some hi, some lo => (percentDecodeBytes rest).map ((16 * hi + lo) :: ·)
    | _, _ => none
  | _ => none

end

/-- Percent-decoding of a string: decode the percent-encoding to bytes,
then decode the bytes as UTF-8. -/
def percentDecode (s : String) : Option String :=
  (percentDecodeBytes s.data).bind fun bs => (utf8Decode bs).map fun cs => ⟨cs⟩

/-! ## `src/api_client.py` -/

/-- The base URL constant of `src/api_client.py`. -/
def BASE_URL : String := "http://api.openweathermap.org/geo/1.0/"

/-- An HTTP GET request: URL and query parameters. `requests` omits a
parameter whose value is `None`, so an absent API key (`API_KEY = None`,
from `os.getenv`) results in a request without an `appid` parameter. -/
structure Request where
  url : String
  params : List (String × String)
deriving DecidableEq

/-- The network's behavior on one request: an HTTP response with a
status code and a parsed JSON body, a timeout
(`requests.exceptions.Timeout`), or a transport-level failure
(any other `requests.exceptions.RequestException`). -/
inductive NetResult where
  | response (status : Nat) (body : Json)
  | timeout
  | connectionError
deriving DecidableEq

/-- The `appid` query parameter: present exactly when the API key is. -/
def appidParams (apiKey : Option String) : List (String × String) :=
  match apiKey with
  | some k => [("appid", k)]
  | none => []

/-- The request issued by `fetch_coordinates_by_name`:
`GET {BASE_URL}direct` with parameters `q` (the encoded location) and
`appid`. -/
def nameRequest (apiKey : Option String) (encodedLocation : String) : Request :=
  { url := BASE_URL ++ "direct", params := ("q", encodedLocation) :: appidParams apiKey }

/-- The request issued by `fetch_coordinates_by_zip`:
`GET {BASE_URL}zip` with parameters `zip` and `appid`. -/
def zipRequest (apiKey : Option String) (zipCode : String) : Request :=
  { url := BASE_URL ++ "zip", params := ("zip", zipCode) :: appidParams apiKey }

/-- `fetch_coordinates_by_name` from `src/api_client.py`. `apiKey`
models the module-level `API_KEY = os.getenv("OPENWEATHER_API_KEY")`
(`none` when the variable is unset); `net` models the network. Returns
the Python-level outcome (`.ok` for a normal return, `.error` for a
raised exception) together with the list of HTTP requests issued.
Control flow of the source: validate and encode (re-raising a
`ValueError` with the message prefixed by `"Invalid location input: "`,
without a network call); issue the GET; `raise_for_status` raises for
status ≥ 400, mapped to `unauthorized` for 401 and `httpError`
otherwise; timeouts and other transport failures map to `timeoutError`
and `requestError`; on success, a falsy parsed body yields the
single-element not-found marker list keyed by the un-encoded location,
and any other body is returned as-is. -/
def fetch_coordinates_by_name (apiKey : Option String) (location : String)
    (net : Request → NetResult) : Except PyError Json × List Request :=
  match validate_location_input location with
  | .error (.valueError msg) => (.error (.valueError ("Invalid location input: " ++ msg)), [])
  | .error e => (.error e, [])
  | .ok loc =>
    let req := nameRequest apiKey (encode_location loc)
    match net req with
    | .timeout => (.error .timeoutError, [req])
    | .connectionError => (.error .requestError, [req])
    | .response status body =>
      if 400 ≤ status then
        if status = 401 then (.error .unauthorized, [req])
        else (.error (.httpError status), [req])
      else if body.pyTruthy then (.ok body, [req])
      else
        (.ok (.arr [.obj [("error", .str ("No results found for location: " ++ loc))]]), [req])

/-- `fetch_coordinates_by_zip` from `src/api_client.py`. Validation:
`zip_code.isdigit()` and `len(zip_code) == 5`, else
`ValueError("Invalid ZIP code. ZIP code must be a 5-digit number.")`
with no network call. Then the GET is issued; `raise_for_status` raises
for status ≥ 400, and the handler returns the not-found marker dict for
404, raises `unauthorized` for 401 and `httpError` otherwise; timeouts
and transport failures map as in the name lookup; on success the parsed
body is returned unchanged. -/
def fetch_coordinates_by_zip (apiKey : Option String) (zipCode : String)
    (net : Request → NetResult) : Except PyError Json × List Request :=
  if !(pyIsDigitStr zipCode && zipCode.length == 5) then
    (.error (.valueError "Invalid ZIP code. ZIP code must be a 5-digit number."), [])
  else
    let req := zipRequest apiKey zipCode
    match net req with
    | .timeout => (.error .timeoutError, [req])
    | .connectionError => (.error .requestError, [req])
    | .response status body =>
      if 400 ≤ status then
        if status = 404 then
          (.ok (.obj [("error", .str ("No results found for ZIP code: " ++ zipCode))]), [req])
        else if status = 401 then (.error .unauthorized, [req])
        else (.error (.httpError status), [req])
      else (.ok body, [req])

/-! ## `src/geoloc_util.py` -/

/-- The per-token dispatch of `main` in `src/geoloc_util.py`: a token
that satisfies `token.isdigit()` goes to the ZIP lookup, any other token
to the name lookup. -/
def routeFetch (apiKey : Option String) (net : Request → NetResult)
    (location : String) : Except PyError Json × List Request :=
  if pyIsDigitStr location then fetch_coordinates_by_zip apiKey location net
  else fetch_coordinates_by_name apiKey location net

/-- The `--locations` loop of `main` in `src/geoloc_util.py`. Each
processed token produces one printed `(location, data)` line. The loop
body does not catch exceptions, so an exception raised while processing
one token aborts the whole loop: the result is either `.ok` with the
lines printed for every token, or `.error` with the lines printed before
the exception and the exception itself. -/
def mainLoop (apiKey : Option String) (net : Request → NetResult) :
    List String → Except (List (String × Json) × PyError) (List (String × Json))
  | [] => .ok []
  | loc :: rest =>
    match (routeFetch apiKey net loc).1 with
    | .error e => .error ([], e)
    | .ok data =>
      match mainLoop apiKey net rest with
      | .ok lines => .ok ((loc, data) :: lines)
      | .error (lines, e) => .error ((loc, data) :: lines, e)

/-! ## Helper lemmas -/

theorem toNat_ofNat_valid {b : Nat} (h : Nat.isValidChar b) : (Char.ofNat b).toNat = b := by
  simp [Char.ofNat, h, Char.ofNatAux, Char.toNat, UInt32.toNat]

theorem char_toNat_lt (c : Char) : c.toNat < 0x110000 := by
  rcases c.valid with h | ⟨h1, h2⟩
  · exact Nat.lt_trans h (by norm_num)
  · exact h2

theorem hexVal_hexDigitChar : ∀ n, n < 16 → hexVal (hexDigitChar n) = some n := by decide

theorem alwaysSafeByte_le {b : Nat} (h : alwaysSafeByte b = true) : b ≤ 126 := by
  simp [alwaysSafeByte] at h
  omega

theorem utf8EncodeChar_lt (c : Char) : ∀ b ∈ utf8EncodeChar c, b < 256 := by
  have hub : c.toNat < 0x110000 := char_toNat_lt c
  intro b hb
  simp only [utf8EncodeChar] at hb
  split at hb
  · simp only [List.mem_singleton] at hb
    omega
  · split at hb
    · simp only [List.mem_cons, List.not_mem_nil, or_false] at hb
      rcases hb with hb | hb <;> omega
    · split at hb
      · simp only [List.mem_cons, List.not_mem_nil, or_false] at hb
        rcases hb with hb | hb | hb <;> omega
      · simp only [List.mem_cons, List.not_mem_nil, or_false] at hb
        rcases hb with hb | hb | hb | hb <;> omega

theorem utf8Encode_lt (cs : List Char) : ∀ b ∈ utf8Encode cs, b < 256 := by
  induction cs with
  | nil => intro b hb; simp [utf8Encode] at hb
  | cons c cs ih =>
    intro b hb
    have hstep : utf8Encode (c :: cs) = utf8EncodeChar c ++ utf8Encode cs := rfl
    rw [hstep, List.mem_append] at hb
    rcases hb with hb | hb
    · exact utf8EncodeChar_lt c b hb
    · exact ih b hb

theorem utf8Decode_encodeChar (c : Char) (bs : List Nat) :
    utf8Decode (utf8EncodeChar c ++ bs) = (utf8Decode bs).map (c :: ·) := by
  have hub : c.toNat < 0x110000 := char_toNat_lt c
  have hofn : Char.ofNat c.toNat = c := Char.ofNat_toNat c
  by_cases h1 : c.toNat < 0x80
  · rw [show utf8EncodeChar c = [c.toNat] by rw [utf8EncodeChar]; simp [h1]]
    rw [List.cons_append, List.nil_append, utf8Decode, if_pos h1, hofn]
  · by_cases h2 : c.toNat < 0x800
    · rw [show utf8EncodeChar c = [0xC0 + c.toNat / 64, 0x80 + c.toNat % 64] by
        rw [utf8EncodeChar]; simp [h1, h2]]
      rw [List.cons_append, List.cons_append, List.nil_append, utf8Decode]
      rw [if_neg (by omega), if_neg (by omega), if_pos (by omega)]
      rw [utf8DecodeTwo, if_pos (by constructor <;> omega)]
      have he : (0xC0 + c.toNat / 64 - 0xC0) * 64 + (0x80 + c.toNat % 64 - 0x80) = c.toNat := by
        omega
      rw [he, hofn]
    · by_cases h3 : c.toNat < 0x10000
      · rw [show utf8EncodeChar c =
            [0xE0 + c.toNat / 4096, 0x80 + c.toNat / 64 % 64, 0x80 + c.toNat % 64] by
          rw [utf8EncodeChar]; simp [h1, h2, h3]]
        rw [List.cons_append, List.cons_append, List.cons_append, List.nil_append, utf8Decode]
        rw [if_neg (by omega), if_neg (by omega), if_neg (by omega), if_pos (by omega)]
        rw [utf8DecodeThree, if_pos (by refine ⟨⟨?_, ?_⟩, ?_, ?_⟩ <;> omega)]
        have he : (0xE0 + c.toNat / 4096 - 0xE0) * 4096 + (0x80 + c.toNat / 64 % 64 - 0x80) * 64 +
            (0x80 + c.toNat % 64 - 0x80) = c.toNat := by omega
        rw [he, hofn]
      · rw [show utf8EncodeChar c =
            [0xF0 + c.toNat / 262144, 0x80 + c.toNat / 4096 % 64,
             0x80 + c.toNat / 64 % 64, 0x80 + c.toNat % 64] by
          rw [utf8EncodeChar]; simp [h1, h2, h3]]
        rw [List.cons_append, List.cons_append, List.cons_append, List.cons_append,
          List.nil_append, utf8Decode]
        rw [if_neg (by omega), if_neg (by omega), if_neg (by omega), if_neg (by omega),
          if_pos (by omega)]
        rw [utf8DecodeFour, if_pos (by refine ⟨⟨?_, ?_⟩, ⟨?_, ?_⟩, ?_, ?_⟩ <;> omega)]
        have he : (0xF0 + c.toNat / 262144 - 0xF0) * 262144 +
            (0x80 + c.toNat / 4096 % 64 - 0x80) * 4096 +
            (0x80 + c.toNat / 64 % 64 - 0x80) * 64 + (0x80 + c.toNat % 64 - 0x80) = c.toNat := by
          omega
        rw [he, hofn]

theorem utf8Decode_utf8Encode (cs : List Char) : utf8Decode (utf8Encode cs) = some cs := by
  induction cs with
  | nil => rfl
  | cons c cs ih =>
    have hstep : utf8Encode (c :: cs) = utf8EncodeChar c ++ utf8Encode cs := rfl
    rw [hstep, utf8Decode_encodeChar, ih]
    rfl

theorem percentDecodeBytes_encodeBytes : ∀ l : List Nat, (∀ b ∈ l, b < 256) →
    percentDecodeBytes (percentEncodeBytes l) = some l := by
  intro l
  induction l with
  | nil => intro _; rfl
  | cons b bs ih =>
    intro h
    have hb : b < 256 := h b (by simp)
    have ihh := ih fun x hx => h x (by simp [hx])
    by_cases hs : alwaysSafeByte b
    · have hb126 : b ≤ 126 := alwaysSafeByte_le hs
      have htn : (Char.ofNat b).toNat = b := toNat_ofNat_valid (Or.inl (by omega))
      have hne : Char.ofNat b ≠ '%' := by
        intro he
        have h37 : (Char.ofNat b).toNat = 37 := by rw [he]; rfl
        rw [htn] at h37
        subst h37
        exact absurd hs (by decide)
      rw [percentEncodeBytes, if_pos hs, List.cons_append, List.nil_append]
      rw [percentDecodeBytes, if_neg hne, if_pos (show (Char.ofNat b).toNat < 0x80 by omega)]
      rw [htn, ihh]
      rfl
    · rw [percentEncodeBytes, if_neg hs, List.cons_append, List.cons_append, List.cons_append,
        List.nil_append]
      rw [percentDecodeBytes, if_pos rfl]
      rw [percentDecodeEscape]
      rw [hexVal_hexDigitChar (b / 16) (by omega), hexVal_hexDigitChar (b % 16) (by omega)]
      show (percentDecodeBytes (percentEncodeBytes bs)).map ((16 * (b / 16) + b % 16) :: ·) =
        some (b :: bs)
      rw [ihh]
      have hbb : 16 * (b / 16) + b % 16 = b := by omega
      rw [hbb]
      rfl

theorem percentDecode_encode_location (s : String) :
    percentDecode (encode_location s) = some s := by
  have h1 : percentDecodeBytes (percentEncodeBytes (utf8Encode s.data)) =
      some (utf8Encode s.data) :=
    percentDecodeBytes_encodeBytes _ (utf8Encode_lt s.data)
  rw [percentDecode, encode_location]
  have hdata : (String.mk (percentEncodeBytes (utf8Encode s.data))).data =
      percentEncodeBytes (utf8Encode s.data) := rfl
  rw [hdata, h1]
  show (utf8Decode (utf8Encode s.data)).map (fun cs => (⟨cs⟩ : String)) = some s
  rw [utf8Decode_utf8Encode]
  rfl

/-! ## Unfolding lemmas for the fetch operations -/

theorem validate_error_shape {s : String} {e : PyError}
    (h : validate_location_input s = .error e) : ∃ m, e = .valueError m := by
  unfold validate_location_input at h
  split at h
  · exact ⟨_, ((Except.error.inj h)).symm⟩
  · split at h
    · exact ⟨_, ((Except.error.inj h)).symm⟩
    · exact absurd h (by simp)

theorem fetch_zip_eq_of_valid {k : Option String} {z : String} {net : Request → NetResult}
    (hd : pyIsDigitStr z = true) (hlen : z.length = 5) :
    fetch_coordinates_by_zip k z net =
      match net (zipRequest k z) with
      | .timeout => (.error .timeoutError, [zipRequest k z])
      | .connectionError => (.error .requestError, [zipRequest k z])
      | .response status body =>
        if 400 ≤ status then
          if status = 404 then
            (.ok (.obj [("error", .str ("No results found for ZIP code: " ++ z))]),
              [zipRequest k z])
          else if status = 401 then (.error .unauthorized, [zipRequest k z])
          else (.error (.httpError status), [zipRequest k z])
        else (.ok body, [zipRequest k z]) := by
  unfold fetch_coordinates_by_zip
  rw [if_neg (by simp [hd, hlen])]

theorem fetch_zip_eq_of_invalid {k : Option String} {z : String} {net : Request → NetResult}
    (hf : ¬(pyIsDigitStr z = true ∧ z.length = 5)) :
    fetch_coordinates_by_zip k z net =
      (.error (.valueError "Invalid ZIP code. ZIP code must be a 5-digit number."), []) := by
  have hc : (!(pyIsDigitStr z && z.length == 5)) = true := by
    by_cases hd : pyIsDigitStr z = true
    · have hlen : ¬(z.length = 5) := fun hl => hf ⟨hd, hl⟩
      simp [hd, hlen]
    · simp [Bool.eq_false_iff.mpr hd]
  unfold fetch_coordinates_by_zip
  rw [if_pos hc]

theorem fetch_name_eq_of_ok {k : Option String} {loc : String} {net : Request → NetResult}
    (hv : validate_location_input loc = .ok loc) :
    fetch_coordinates_by_name k loc net =
      match net (nameRequest k (encode_location loc)) with
      | .timeout => (.error .timeoutError, [nameRequest k (encode_location loc)])
      | .connectionError => (.error .requestError, [nameRequest k (encode_location loc)])
      | .response status body =>
        if 400 ≤ status then
          if status = 401 then (.error .unauthorized, [nameRequest k (encode_location loc)])
          else (.error (.httpError status), [nameRequest k (encode_location loc)])
        else if body.pyTruthy then (.ok body, [nameRequest k (encode_location loc)])
        else
          (.ok (.arr [.obj [("error", .str ("No results found for location: " ++ loc))]]),
            [nameRequest k (encode_location loc)]) := by
  unfold fetch_coordinates_by_name
  rw [hv]

theorem fetch_name_eq_of_error {k : Option String} {loc : String} {net : Request → NetResult}
    {m : String} (hv : validate_location_input loc = .error (.valueError m)) :
    fetch_coordinates_by_name k loc net =
      (.error (.valueError ("Invalid location input: " ++ m)), []) := by
  unfold fetch_coordinates_by_name
  rw [hv]

theorem fetch_name_response {k : Option String} {loc : String} {net : Request → NetResult}
    {st : Nat} {body : Json}
    (hv : validate_location_input loc = .ok loc)
    (hnet : net (nameRequest k (encode_location loc)) = .response st body) :
    fetch_coordinates_by_name k loc net =
      (if 400 ≤ st then
         if st = 401 then (.error .unauthorized, [nameRequest k (encode_location loc)])
         else (.error (.httpError st), [nameRequest k (encode_location loc)])
       else if body.pyTruthy then (.ok body, [nameRequest k (encode_location loc)])
       else
         (.ok (.arr [.obj [("error", .str ("No results found for location: " ++ loc))]]),
           [nameRequest k (encode_location loc)])) := by
  rw [fetch_name_eq_of_ok hv, hnet]

theorem fetch_zip_response {k : Option String} {z : String} {net : Request → NetResult}
    {st : Nat} {body : Json}
    (hd : pyIsDigitStr z = true) (hlen : z.length = 5)
    (hnet : net (zipRequest k z) = .response st body) :
    fetch_coordinates_by_zip k z net =
      (if 400 ≤ st then
         if st = 404 then
           (.ok (.obj [("error", .str ("No results found for ZIP code: " ++ z))]),
             [zipRequest k z])
         else if st = 401 then (.error .unauthorized, [zipRequest k z])
         else (.error (.httpError st), [zipRequest k z])
       else (.ok body, [zipRequest k z])) := by
  rw [fetch_zip_eq_of_valid hd hlen, hnet]

/-! ## Claims -/

/-- C1: for every `fetch_coordinates_by_name` call in which the remote
service responds with a 2xx status and an array body, the result is the
array itself when it is non-empty (order preserved), and otherwise the
single-element list containing the synthetic not-found marker keyed by
the original un-encoded location string, returned as data (`.ok`), not
as a failure; hence every successful array result is non-empty. -/
theorem name_lookup_success_normalization (k : Option String) (loc : String)
    (net : Request → NetResult) (st : Nat) (xs : List Json)
    (hv : validate_location_input loc = .ok loc)
    (hnet : net (nameRequest k (encode_location loc)) = .response st (.arr xs))
    (hst : 200 ≤ st ∧ st < 300) :
    (fetch_coordinates_by_name k loc net).1 =
      .ok (.arr (if xs.isEmpty then
        [.obj [("error", .str ("No results found for location: " ++ loc))]] else xs)) ∧
    (∀ ys, (fetch_coordinates_by_name k loc net).1 = .ok (.arr ys) → ys ≠ []) := by
  have hr : (fetch_coordinates_by_name k loc net).1 =
      .ok (.arr (if xs.isEmpty then
        [.obj [("error", .str ("No results found for location: " ++ loc))]] else xs)) := by
    rw [fetch_name_response hv hnet, if_neg (by omega)]
    rcases hxs : xs.isEmpty with _ | _
    · rw [show (Json.arr xs).pyTruthy = true by simp [Json.pyTruthy, hxs], if_pos rfl]
      simp [hxs]
    · rw [show (Json.arr xs).pyTruthy = false by simp [Json.pyTruthy, hxs], if_neg (by simp)]
      simp [hxs]
  refine ⟨hr, ?_⟩
  intro ys hy
  rw [hr] at hy
  have hxy := (Json.arr.inj (Except.ok.inj hy)).symm
  subst hxy
  rcases hxs : xs.isEmpty with _ | _
  · simp only [hxs, if_false, Bool.false_eq_true]
    exact fun h => by simp [h] at hxs
  · simp only [hxs, if_true]
    simp

/-- C1 witness: a mocked empty-array 2xx response for `Madison, WI`
yields the single not-found marker as data. -/
theorem name_lookup_success_normalization_witness :
    (fetch_coordinates_by_name none "Madison, WI"
      (fun _ => .response 200 (.arr []))).1 =
      .ok (.arr [.obj [("error", .str "No results found for location: Madison, WI")]]) := by
  have h := (name_lookup_success_normalization none "Madison, WI"
    (fun _ => .response 200 (.arr [])) 200 [] (by decide) rfl (by omega)).1
  exact h.trans (by decide)

/-- C2: for every `fetch_coordinates_by_zip` call with a valid 5-digit
ZIP string where the remote service responds with HTTP 404, the
operation returns (`.ok`, not a failure) the not-found marker
referencing that ZIP code. -/
theorem zip_404_returns_marker (k : Option String) (z : String) (net : Request → NetResult)
    (body : Json)
    (hd : pyIsDigitStr z = true) (hlen : z.length = 5)
    (hnet : net (zipRequest k z) = .response 404 body) :
    (fetch_coordinates_by_zip k z net).1 =
      .ok (.obj [("error", .str ("No results found for ZIP code: " ++ z))]) := by
  rw [fetch_zip_response hd hlen hnet, if_pos (by omega), if_pos rfl]

/-- C2 witness: a mocked 404 for ZIP `00000` yields the not-found marker
as data. -/
theorem zip_404_returns_marker_witness :
    (fetch_coordinates_by_zip none "00000" (fun _ => .response 404 .null)).1 =
      .ok (.obj [("error", .str "No results found for ZIP code: 00000")]) := by
  have h := zip_404_returns_marker none "00000" (fun _ => .response 404 .null) .null
    (by decide) (by decide) rfl
  exact h.trans (by decide)

/-- C3 counterexample: the claim's character class (letters, digits,
whitespace, comma, period, hyphen) is violated by the code on `"_"`:
the validator accepts the underscore (it is in the regex's `\w`), while
the claimed if-and-only-if would require rejection. -/
theorem validator_underscore_counterexample :
    ¬(validate_location_input "_" = .ok "_" ↔
      (pyStrip "_").isEmpty = false ∧ "_".data.all specLocationClassChar = true) := by decide

/-- C3 (amended): `validate_location_input` returns its argument
unchanged exactly when the argument is non-empty after stripping
whitespace and every character is a word character (letter, digit, or
underscore), whitespace, comma, period or hyphen; an empty-after-strip
string fails with the "empty" reason, and a non-empty string containing
a character outside the class fails with the "illegal characters"
reason. -/
theorem validate_location_input_class (s : String) :
    (validate_location_input s = .ok s ↔
      (pyStrip s).isEmpty = false ∧ s.data.all wordClassChar = true) ∧
    (∀ t, validate_location_input s = .ok t → t = s) ∧
    ((pyStrip s).isEmpty = true →
      validate_location_input s = .error (.valueError "Location input cannot be empty.")) ∧
    ((pyStrip s).isEmpty = false → s.data.all wordClassChar = false →
      validate_location_input s = .error (.valueError "Location contains invalid characters.")) := by
  unfold validate_location_input
  by_cases h1 : (pyStrip s).isEmpty
  · simp [h1]
  · by_cases h2 : s.data.all wordClassChar
    · simp [h1, h2]
    · simp [h1, h2]

/-- C3 witness: the spec's example `"@#$%^&*!"` fails with the
"illegal characters" reason. -/
theorem validate_location_input_class_witness :
    validate_location_input "@#$%^&*!" =
      .error (.valueError "Location contains invalid characters.") :=
  (validate_location_input_class "@#$%^&*!").2.2.2 (by decide) (by decide)

/-- C4 counterexample: ZIP validation is not "exactly 5 ASCII digits":
the string of five SUPERSCRIPT TWO characters (U+00B2) contains no ASCII
digit, yet `str.isdigit` accepts it, so the code proceeds to the network
and returns the response body instead of failing with `InvalidInput`. -/
theorem zip_validation_unicode_digit :
    (fetch_coordinates_by_zip none "²²²²²" (fun _ => .response 200 (.obj []))).1 =
      .ok (.obj []) ∧
    "²²²²²".data.all (fun c => decide (48 ≤ c.toNat ∧ c.toNat ≤ 57)) = false := by decide

/-- C4 (amended): ZIP validation succeeds — the request is issued —
exactly when the string has length 5 and satisfies Python's
`str.isdigit` (which admits Unicode digit characters as well as ASCII
digits); for any other length or any non-digit content it fails with
the `InvalidInput` `ValueError` and no request is issued. -/
theorem zip_validation_exact (k : Option String) (z : String) (net : Request → NetResult) :
    (pyIsDigitStr z = true → z.length = 5 →
      (fetch_coordinates_by_zip k z net).2 = [zipRequest k z]) ∧
    (¬(pyIsDigitStr z = true ∧ z.length = 5) →
      fetch_coordinates_by_zip k z net =
        (.error (.valueError "Invalid ZIP code. ZIP code must be a 5-digit number."), [])) := by
  constructor
  · intro hd hlen
    rcases hc : net (zipRequest k z) with ⟨st, body⟩ | _ | _
    · rw [fetch_zip_response hd hlen hc]
      split_ifs <;> rfl
    · rw [fetch_zip_eq_of_valid hd hlen, hc]
    · rw [fetch_zip_eq_of_valid hd hlen, hc]
  · exact fetch_zip_eq_of_invalid

/-- C4 witness: the spec's example `"5370"` (wrong length) fails with
`InvalidInput` and no request is issued. -/
theorem zip_validation_exact_witness :
    fetch_coordinates_by_zip none "5370" (fun _ => .timeout) =
      (.error (.valueError "Invalid ZIP code. ZIP code must be a 5-digit number."), []) :=
  (zip_validation_exact none "5370" (fun _ => .timeout)).2 (by decide)

/-- C5: for every input that fails validation, both fetch operations
fail with the `InvalidInput` `ValueError` and issue no HTTP request
(the request trace is empty). -/
theorem validation_failure_no_request (k : Option String) (s : String)
    (net : Request → NetResult) :
    (∀ e, validate_location_input s = .error e →
      (fetch_coordinates_by_name k s net).2 = [] ∧
      ∃ m, (fetch_coordinates_by_name k s net).1 = .error (.valueError m)) ∧
    (¬(pyIsDigitStr s = true ∧ s.length = 5) →
      (fetch_coordinates_by_zip k s net).2 = [] ∧
      ∃ m, (fetch_coordinates_by_zip k s net).1 = .error (.valueError m)) := by
  constructor
  · intro e he
    obtain ⟨m, hm⟩ := validate_error_shape he
    subst hm
    rw [fetch_name_eq_of_error he]
    exact ⟨rfl, _, rfl⟩
  · intro hf
    rw [fetch_zip_eq_of_invalid hf]
    exact ⟨rfl, _, rfl⟩

/-- C5 witness: on the invalid input `"@#$%^&*!"` neither operation
issues a request. -/
theorem validation_failure_no_request_witness :
    (fetch_coordinates_by_name none "@#$%^&*!" (fun _ => .timeout)).2 = [] ∧
    (fetch_coordinates_by_zip none "@#$%^&*!" (fun _ => .timeout)).2 = [] := by
  refine ⟨?_, ?_⟩
  · exact ((validation_failure_no_request none "@#$%^&*!" (fun _ => .timeout)).1
      (.valueError "Location contains invalid characters.") (by decide)).1
  · exact ((validation_failure_no_request none "@#$%^&*!" (fun _ => .timeout)).2 (by decide)).1

/-- C6: when the remote service responds 401, both operations fail with
the `unauthorized` error, and that error is distinct from every other
failure kind (`valueError`, `timeoutError`, `httpError`,
`requestError`). -/
theorem unauthorized_on_401 (k : Option String) (loc z : String) (net : Request → NetResult)
    (b1 b2 : Json)
    (hv : validate_location_input loc = .ok loc)
    (hd : pyIsDigitStr z = true) (hlen : z.length = 5)
    (h1 : net (nameRequest k (encode_location loc)) = .response 401 b1)
    (h2 : net (zipRequest k z) = .response 401 b2) :
    (fetch_coordinates_by_name k loc net).1 = .error .unauthorized ∧
    (fetch_coordinates_by_zip k z net).1 = .error .unauthorized ∧
    (∀ m, PyError.unauthorized ≠ .valueError m) ∧
    PyError.unauthorized ≠ .timeoutError ∧
    (∀ st, PyError.unauthorized ≠ .httpError st) ∧
    PyError.unauthorized ≠ .requestError := by
  refine ⟨?_, ?_, ?_, ?_, ?_, ?_⟩
  · rw [fetch_name_response hv h1, if_pos (by omega), if_pos rfl]
  · rw [fetch_zip_response hd hlen h2, if_pos (by omega), if_neg (by omega), if_pos rfl]
  · intro m h
    exact PyError.noConfusion h
  · intro h
    exact PyError.noConfusion h
  · intro st h
    exact PyError.noConfusion h
  · intro h
    exact PyError.noConfusion h

/-- C6 witness: a mocked 401 makes both operations fail with
`unauthorized`. -/
theorem unauthorized_on_401_witness :
    (fetch_coordinates_by_name none "Madison, WI" (fun _ => .response 401 .null)).1 =
      .error .unauthorized ∧
    (fetch_coordinates_by_zip none "53703" (fun _ => .response 401 .null)).1 =
      .error .unauthorized := by
  have h := unauthorized_on_401 none "Madison, WI" "53703" (fun _ => .response 401 .null)
    .null .null (by decide) (by decide) (by decide) rfl rfl
  exact ⟨h.1, h.2.1⟩

/-- C7: for every string accepted by the Input Validator,
percent-decoding the output of `encode_location` yields the original
string exactly. -/
theorem decode_encode_location_id (s : String)
    (_hv : validate_location_input s = .ok s) :
    percentDecode (encode_location s) = some s :=
  percentDecode_encode_location s

/-- C7 witness: `Madison, WI` round-trips through encoding and
decoding. -/
theorem decode_encode_location_id_witness :
    percentDecode (encode_location "Madison, WI") = some "Madison, WI" :=
  decode_encode_location_id "Madison, WI" (by decide)

/-- C8 counterexample: with the API key absent (`none`), the program
does NOT fail fast before issuing an HTTP request: the name lookup
issues its request anyway (with no `appid` parameter), and the ensuing
401 surfaces as the `unauthorized` failure, not as a configuration
error raised before the request. -/
theorem fail_fast_counterexample :
    (fetch_coordinates_by_name none "Madison, WI" (fun _ => .response 401 .null)).2 ≠ [] ∧
    (fetch_coordinates_by_name none "Madison, WI" (fun _ => .response 401 .null)).2 =
      [{ url := "http://api.openweathermap.org/geo/1.0/direct",
         params := [("q", "Madison%2C%20WI")] }] ∧
    (fetch_coordinates_by_name none "Madison, WI" (fun _ => .response 401 .null)).1 =
      .error .unauthorized := by decide

/-- C8 (amended): when the credential is absent, any validated name
lookup still issues its HTTP request — with the `appid` parameter
omitted — and a 401 response then fails as `unauthorized`; the code
performs no fail-fast configuration check. -/
theorem missing_key_request_issued (loc : String) (net : Request → NetResult) (b : Json)
    (hv : validate_location_input loc = .ok loc)
    (hnet : net (nameRequest none (encode_location loc)) = .response 401 b) :
    (fetch_coordinates_by_name none loc net).2 =
      [{ url := BASE_URL ++ "direct", params := [("q", encode_location loc)] }] ∧
    (fetch_coordinates_by_name none loc net).1 = .error .unauthorized := by
  rw [fetch_name_response hv hnet, if_pos (by omega), if_pos rfl]
  exact ⟨rfl, rfl⟩

/-- C8 witness: the request issued for `Madison, WI` with an absent key
carries only the `q` parameter. -/
theorem missing_key_request_issued_witness :
    (fetch_coordinates_by_name none "Madison, WI" (fun _ => .response 401 .null)).2 =
      [{ url := BASE_URL ++ "direct", params := [("q", encode_location "Madison, WI")] }] := by
  have h := missing_key_request_issued "Madison, WI" (fun _ => .response 401 .null) .null
    (by decide) rfl
  exact h.1

/-- C9 counterexample: in the batch `["@#$%^&*!", "53703"]` the failure
on the first token aborts the whole loop — the result is the uncaught
`ValueError` with NO line printed for `"53703"` — although `"53703"`
alone would have been processed successfully under the same mocked
network. -/
theorem batch_abort_counterexample :
    mainLoop none (fun _ => .response 200 (.obj [("lat", .num 430731 (-4))]))
      ["@#$%^&*!", "53703"] =
      .error ([], .valueError "Invalid location input: Location contains invalid characters.") ∧
    mainLoop none (fun _ => .response 200 (.obj [("lat", .num 430731 (-4))]))
      ["53703"] = .ok [("53703", .obj [("lat", .num 430731 (-4))])] := by decide

/-- C9 (amended): a failure while processing one token is surfaced as a
distinguishable failure (the exception value identifies the input's
failure reason), but it ABORTS the batch: no remaining token is
processed; a successfully processed token prepends its printed line and
the loop continues. -/
theorem mainLoop_step (k : Option String) (net : Request → NetResult) (t : String)
    (rest : List String) :
    (∀ e, (routeFetch k net t).1 = .error e → mainLoop k net (t :: rest) = .error ([], e)) ∧
    (∀ d, (routeFetch k net t).1 = .ok d →
      mainLoop k net (t :: rest) =
        match mainLoop k net rest with
        | .ok lines => .ok ((t, d) :: lines)
        | .error (lines, e) => .error ((t, d) :: lines, e)) := by
  have hm : mainLoop k net (t :: rest) =
      match (routeFetch k net t).1 with
      | .error e => .error ([], e)
      | .ok data =>
        match mainLoop k net rest with
        | .ok lines => .ok ((t, data) :: lines)
        | .error (lines, e) => .error ((t, data) :: lines, e) := rfl
  constructor
  · intro e he
    rw [hm, he]
  · intro d hd
    rw [hm, hd]

/-- C9 witness: the failing first token of `["@#$%^&*!", "53703"]`
aborts the loop with no lines printed. -/
theorem mainLoop_step_witness :
    mainLoop none (fun _ => .timeout) ["@#$%^&*!", "53703"] =
      .error ([], .valueError "Invalid location input: Location contains invalid characters.") :=
  (mainLoop_step none (fun _ => .timeout) "@#$%^&*!" ["53703"]).1
    (.valueError "Invalid location input: Location contains invalid characters.") (by decide)

/-- C10: for every `fetch_coordinates_by_zip` call in which the remote
service responds 2xx, the returned value is exactly the parsed JSON
body — whatever it is, with no validation of `lat`, `lon`, `name` or
`country` fields. -/
theorem zip_2xx_passthrough (k : Option String) (z : String) (net : Request → NetResult)
    (st : Nat) (body : Json)
    (hd : pyIsDigitStr z = true) (hlen : z.length = 5)
    (hnet : net (zipRequest k z) = .response st body)
    (hst : 200 ≤ st ∧ st < 300) :
    (fetch_coordinates_by_zip k z net).1 = .ok body := by
  rw [fetch_zip_response hd hlen hnet, if_neg (by omega)]

/-- C10 witness: a 2xx response whose body is the empty object — with
none of the expected fields — is passed through unchanged. -/
theorem zip_2xx_passthrough_witness :
    (fetch_coordinates_by_zip none "53703" (fun _ => .response 200 (.obj []))).1 =
      .ok (.obj []) :=
  zip_2xx_passthrough none "53703" (fun _ => .response 200 (.obj [])) 200 (.obj [])
    (by decide) (by decide) rfl (by omega)
